import Mathlib

/-!
Verification of the FastAPI tutorial app in `app/main.py`.

The app is a single file of pydantic models and route handlers.  We embed:
  * the data model (`HairColor`, `PersonBase`/`Person`, `PersonOut`, `LoginOut`)
    with the declared `Field` constraints,
  * each route handler as a pure function,
  * the FastAPI serialization layer: JSON values, model-to-JSON encoding, and
    response-model validation (`response_model=PersonOut` re-validates the
    return value of the handler against `PersonOut`; a value that does not validate
    makes FastAPI answer 500 instead of the declared status).

HTTP responses are modelled as a pair `(status, body)` where the body is a
flat JSON object (no response of the app nests objects).  Python floats
are modelled as exact rationals; `round(x, ndigits=2)` is the Python
round-half-to-even at two decimal places, embedded over `Rat`.
-/

/-- Flat JSON values, enough for every response body of the app.
Python floats are modelled as exact rationals. -/
inductive JValue where
  | jnull
  | jbool (b : Bool)
  | jint (n : Int)
  | jstr (s : String)
  | jrat (q : Rat)
  deriving DecidableEq, Repr

/-- A JSON object: an association list from field names to values. -/
abbrev JObject := List (String × JValue)

deriving instance DecidableEq for Except

/-- `class HairColor(Enum)` from `main.py`: five fixed values. -/
inductive HairColor where
  | white
  | brown
  | black
  | blonde
  | red
  deriving DecidableEq, Repr

/-- The string value of each `HairColor` enum member. -/
def HairColor.val : HairColor → String
  | .white => "white"
  | .brown => "brown"
  | .black => "black"
  | .blonde => "blonde"
  | .red => "red"

/-- `class Person(PersonBase)` from `main.py`: the five `PersonBase` fields
plus `password`.  Constraints live in the `Field(...)` declarations and are
modelled separately as `personValid`. -/
structure Person where
  first_name : String
  last_name : String
  age : Int
  hair_color : Option HairColor
  is_married : Option Bool
  password : String
  deriving DecidableEq, Repr

/-- `class PersonOut(PersonBase)` from `main.py`: exactly the `PersonBase`
fields, no `password`. -/
structure PersonOut where
  first_name : String
  last_name : String
  age : Int
  hair_color : Option HairColor
  is_married : Option Bool
  deriving DecidableEq, Repr

/-- `first_name`/`last_name` constraint: `min_length=1, max_length=50`. -/
def nameOk (s : String) : Bool :=
  decide (1 ≤ s.length) && decide (s.length ≤ 50)

/-- `age` constraint: `gt=0, le=115`. -/
def ageOk (a : Int) : Bool :=
  decide (0 < a) && decide (a ≤ 115)

/-- `password` constraint: `min_length=8`. -/
def passwordOk (s : String) : Bool :=
  decide (8 ≤ s.length)

/-- Pydantic validation of a `Person` request body: every declared `Field`
constraint of `PersonBase` plus the `password` constraint.  `hair_color` and
`is_married` are optional with default `None` and carry no extra constraint. -/
def personValid (p : Person) : Bool :=
  nameOk p.first_name && nameOk p.last_name && ageOk p.age && passwordOk p.password

/-- Pydantic validation of a `PersonOut` value: the `PersonBase` constraints
(inherited by `PersonOut`). -/
def personOutValid (o : PersonOut) : Bool :=
  nameOk o.first_name && nameOk o.last_name && ageOk o.age

/-- The FastAPI request-body validation for endpoints taking `person: Person`:
a body violating a declared constraint is rejected with a 422
unprocessable-entity error before the handler runs. -/
def person_request_validation (p : Person) : Except Nat Person :=
  if personValid p then .ok p else .error 422

/-- JSON encoding of a `Person` model (pydantic `.dict()` / jsonable_encoder):
all six fields, enum encoded by its value, `None` as null. -/
def Person.toJson (p : Person) : JObject :=
  [("first_name", .jstr p.first_name),
   ("last_name", .jstr p.last_name),
   ("age", .jint p.age),
   ("hair_color", match p.hair_color with | none => .jnull | some c => .jstr c.val),
   ("is_married", match p.is_married with | none => .jnull | some b => .jbool b),
   ("password", .jstr p.password)]

/-- JSON encoding of a `PersonOut` model: the five `PersonBase` fields. -/
def PersonOut.toJson (o : PersonOut) : JObject :=
  [("first_name", .jstr o.first_name),
   ("last_name", .jstr o.last_name),
   ("age", .jint o.age),
   ("hair_color", match o.hair_color with | none => .jnull | some c => .jstr c.val),
   ("is_married", match o.is_married with | none => .jnull | some b => .jbool b)]

/-- Extract a string-typed JSON value. -/
def JValue.asStr : JValue → Option String
  | .jstr s => some s
  | _ => none

/-- Extract an integer-typed JSON value. -/
def JValue.asInt : JValue → Option Int
  | .jint n => some n
  | _ => none

/-- Pydantic parsing of the optional `hair_color` field: missing or null gives
the default `None`; otherwise the value must be one of the five enum values. -/
def parseHairColor : Option JValue → Option (Option HairColor)
  | none => some none
  | some .jnull => some none
  | some (.jstr "white") => some (some .white)
  | some (.jstr "brown") => some (some .brown)
  | some (.jstr "black") => some (some .black)
  | some (.jstr "blonde") => some (some .blonde)
  | some (.jstr "red") => some (some .red)
  | some _ => none

/-- Pydantic parsing of the optional boolean `is_married` field. -/
def parseOptBool : Option JValue → Option (Option Bool)
  | none => some none
  | some .jnull => some none
  | some (.jbool b) => some (some b)
  | some _ => none

/-- Pydantic validation of an arbitrary JSON object against `PersonOut`:
the three required fields must be present with the right type, the optional
fields default to `None`, and the inherited `PersonBase` constraints must
hold.  `none` is a validation failure. -/
def PersonOut.parse (j : JObject) : Option PersonOut :=
  match (j.lookup "first_name").bind JValue.asStr,
        (j.lookup "last_name").bind JValue.asStr,
        (j.lookup "age").bind JValue.asInt,
        parseHairColor (j.lookup "hair_color"),
        parseOptBool (j.lookup "is_married") with
  | some fn, some ln, some a, some hc, some im =>
      if personOutValid ⟨fn, ln, a, hc, im⟩ then some ⟨fn, ln, a, hc, im⟩ else none
  | _, _, _, _, _ => none

/-- The FastAPI `response_model=PersonOut` serialization step: the return value
of the handler is validated against `PersonOut`; on success the response is the
declared status with the serialized `PersonOut`, on failure FastAPI answers
500 Internal Server Error (plain-text body, modelled as the empty object). -/
def validate_as_person_out (status : Nat) (body : JObject) : Nat × JObject :=
  match PersonOut.parse body with
  | some o => (status, o.toJson)
  | none => (500, [])

/-- `home` handler: `GET /`, returns `{"Hello": "World"}`. -/
def home : JObject := [("Hello", .jstr "World")]

/-- `create_person` handler: `POST /person/new`, `return person`. -/
def create_person (person : Person) : Person := person

/-- Full response of `POST /person/new`: declared `status_code=201`,
`response_model=PersonOut` applied to the returned `Person`. -/
def create_person_response (person : Person) : Nat × JObject :=
  validate_as_person_out 201 (create_person person).toJson

/-- Query-parameter `show_person` handler: `GET /person/detail`,
`return {name: age}` — a single-entry dict keyed by the (optional) name.
A `None` key is encoded as JSON null; for the key of the flat object we keep
the Python rendering of the missing name. -/
def show_person_query (name : Option String) (age : String) : JObject :=
  [(match name with | some n => n | none => "null", JValue.jstr age)]

/-- Full response of `GET /person/detail`: declared `status_code=200`,
`response_model=PersonOut` applied to the returned dict. -/
def show_person_query_response (name : Option String) (age : String) : Nat × JObject :=
  validate_as_person_out 200 (show_person_query name age)

/-- `persons = [1, 2, 3, 4, 5]` from `main.py`. -/
def persons : List Int := [1, 2, 3, 4, 5]

/-- Path-parameter `show_person` handler over a given persons list:
`if person_id not in persons: raise HTTPException(404, "Person not found... :[")`,
otherwise `return {person_id: "It exists!"}`.  `Except.error` carries the
the status code and detail message of the `HTTPException`. -/
def show_person_path_core (ps : List Int) (person_id : Int) :
    Except (Nat × String) JObject :=
  if person_id ∉ ps then
    .error (404, "Person not found... :[")
  else
    .ok [(toString person_id, JValue.jstr "It exists!")]

/-- Path-parameter `show_person` handler reading the module-level `persons`. -/
def show_person_path (person_id : Int) : Except (Nat × String) JObject :=
  show_person_path_core persons person_id

/-- Full response of `GET /person/detail/{person_id}`: an `HTTPException`
becomes a `{"detail": ...}` error response; a normal return goes through
`response_model=PersonOut` with declared `status_code=200`. -/
def show_person_path_response (person_id : Int) : Nat × JObject :=
  match show_person_path person_id with
  | .error (st, detail) => (st, [("detail", .jstr detail)])
  | .ok body => validate_as_person_out 200 body

/-- `update_person` handler: `PUT /person/{person_id}`, `return person`. -/
def update_person (person_id : Int) (person : Person) : Person := person

/-- Full response of `PUT /person/{person_id}`: declared `status_code=202`,
`response_model=PersonOut` applied to the returned `Person`. -/
def update_person_response (person_id : Int) (person : Person) : Nat × JObject :=
  validate_as_person_out 202 (update_person person_id person).toJson

/-- `class LoginOut(BaseModel)` from `main.py`: `username` (1 to 20 chars) and
`message` defaulting to the fixed success string. -/
structure LoginOut where
  username : String
  message : String := "Succesfully Logged"
  deriving DecidableEq, Repr

/-- `username` constraint of `LoginOut`: `min_length=1, max_length=20`. -/
def loginUsernameOk (s : String) : Bool :=
  decide (1 ≤ s.length) && decide (s.length ≤ 20)

/-- JSON encoding of a `LoginOut` model. -/
def LoginOut.toJson (l : LoginOut) : JObject :=
  [("username", .jstr l.username), ("message", .jstr l.message)]

/-- `login` handler: `POST /login`, `return LoginOut(username = username)`.
The form `password` is received but never used. -/
def login (username password : String) : LoginOut :=
  { username := username }

/-- Full response of `POST /login`: constructing/validating `LoginOut` checks
the `username` constraint (pydantic raises on violation, which FastAPI turns
into a 500); on success the declared `status_code=200` with the serialized
model. -/
def login_response (username password : String) : Nat × JObject :=
  let out := login username password
  if loginUsernameOk out.username then (200, out.toJson) else (500, [])

/-- `contact` handler: `POST /contact`, `return user_agent` — echoes the
optional `User-Agent` header, ignoring the validated form fields and the
`ads` cookie. -/
def contact (first_name last_name email message : String)
    (user_agent ads : Option String) : Option String :=
  user_agent

/-- Round a rational to the nearest integer, ties to even — the semantics of
the Python built-in `round`. -/
def roundHalfEven (q : Rat) : Int :=
  if q - ⌊q⌋ < 1 / 2 then ⌊q⌋
  else if 1 / 2 < q - ⌊q⌋ then ⌊q⌋ + 1
  else if ⌊q⌋ % 2 = 0 then ⌊q⌋ else ⌊q⌋ + 1

/-- The Python `round(x, ndigits=2)`: round-half-to-even at two decimals. -/
def round2 (q : Rat) : Rat :=
  (roundHalfEven (q * 100) : Rat) / 100

/-- `post_image` handler: `POST /upload-image`.  The uploaded file is
modelled by its byte contents; `len(image.file.read())` is the byte count and
the reported size is `round(bytes/(1024*1024), ndigits=2)`. -/
def post_image (filename content_type : String) (fileBytes : List Nat) : JObject :=
  [("File name", .jstr filename),
   ("Content type", .jstr content_type),
   ("Size (mb)", .jrat (round2 ((fileBytes.length : Rat) / (1024 * 1024))))]

/-- Full response of `POST /upload-image`: declared `status_code=200`, no
response model. -/
def post_image_response (filename content_type : String)
    (fileBytes : List Nat) : Nat × JObject :=
  (200, post_image filename content_type fileBytes)

/-- The module-level mutable state of the app.  The only module-level object
a handler reads is the `persons` list; the state records it so that the
step function can show no request changes it. -/
structure AppState where
  persons : List Int
  deriving DecidableEq, Repr

/-- The state at import time: `persons = [1, 2, 3, 4, 5]`. -/
def initState : AppState := ⟨persons⟩

/-- One incoming request to any endpoint of the app. -/
inductive Request where
  | homeReq
  | createPerson (p : Person)
  | showQuery (name : Option String) (age : String)
  | showById (person_id : Int)
  | updatePersonReq (person_id : Int) (p : Person)
  | loginReq (username password : String)
  | contactReq (first_name last_name email message : String)
      (user_agent ads : Option String)
  | uploadImage (filename content_type : String) (fileBytes : List Nat)

/-- The body produced by a handler: a JSON response, or the bare
optional-string body of `/contact`. -/
inductive HOut where
  | obj (r : Nat × JObject)
  | str (s : Option String)
  deriving DecidableEq, Repr

/-- The step function of the app: dispatch one request against the current module
state, producing the next state and the response.  Handlers that read the
`persons` list read it from the state; no handler writes any state. -/
def handle (s : AppState) : Request → AppState × HOut
  | .homeReq => (s, .obj (200, home))
  | .createPerson p => (s, .obj (create_person_response p))
  | .showQuery name age => (s, .obj (show_person_query_response name age))
  | .showById pid =>
      (s, .obj (match show_person_path_core s.persons pid with
        | .error (st, detail) => (st, [("detail", .jstr detail)])
        | .ok body => validate_as_person_out 200 body))
  | .updatePersonReq pid p => (s, .obj (update_person_response pid p))
  | .loginReq u pw => (s, .obj (login_response u pw))
  | .contactReq fn ln em msg ua ads => (s, .str (contact fn ln em msg ua ads))
  | .uploadImage fn ct bs => (s, .obj (post_image_response fn ct bs))

/-- Run a sequence of requests from a state, keeping only the final state. -/
def runAll (s : AppState) (rs : List Request) : AppState :=
  rs.foldl (fun st r => (handle st r).1) s

/-!
Theorems.  Each claim of the specification gets one theorem; shared helper
lemmas come first.
-/

/-- Helper: response-model validation of the JSON encoding of a `Person`
that satisfies the declared constraints succeeds and yields exactly the
`PersonOut` projection of its fields. -/
theorem parse_person_toJson (p : Person) (h : personValid p = true) :
    PersonOut.parse (Person.toJson p) =
      some ⟨p.first_name, p.last_name, p.age, p.hair_color, p.is_married⟩ := by
  obtain ⟨fn, ln, a, hc, im, pw⟩ := p
  have hov : personOutValid ⟨fn, ln, a, hc, im⟩ = true := by
    simp only [personValid, Bool.and_eq_true] at h
    simp only [personOutValid, Bool.and_eq_true]
    exact h.1
  cases hc with
  | none =>
      cases im <;>
        simp [Person.toJson, PersonOut.parse, List.lookup, parseHairColor,
          parseOptBool, JValue.asStr, JValue.asInt, hov]
  | some c =>
      cases c <;> cases im <;>
        simp [Person.toJson, PersonOut.parse, List.lookup, parseHairColor,
          parseOptBool, JValue.asStr, JValue.asInt, HairColor.val, hov]

/-- C1: for every valid `Person` payload, the response of `POST /person/new`
is the declared 201 status with exactly the five non-password fields, each
with its value unchanged, and no field of the response body is named
`password`. -/
theorem create_person_round_trip (p : Person) (h : personValid p = true) :
    create_person_response p =
      (201, PersonOut.toJson ⟨p.first_name, p.last_name, p.age, p.hair_color, p.is_married⟩) ∧
    ∀ kv ∈ (create_person_response p).2, kv.1 ≠ "password" := by
  have main : create_person_response p =
      (201, PersonOut.toJson ⟨p.first_name, p.last_name, p.age, p.hair_color, p.is_married⟩) := by
    rw [create_person_response, create_person, validate_as_person_out, parse_person_toJson p h]
  refine ⟨main, ?_⟩
  rw [main]
  rcases p.hair_color with _ | c <;> rcases p.is_married with _ | b <;>
    simp [PersonOut.toJson]

/-- Witness for C1 at a concrete valid person. -/
theorem create_person_round_trip_witness :
    personValid ⟨"Miguel", "Torres", 25, some .black, some false, "password123"⟩ = true ∧
    (create_person_response ⟨"Miguel", "Torres", 25, some .black, some false, "password123"⟩ =
      (201, PersonOut.toJson ⟨"Miguel", "Torres", 25, some .black, some false⟩) ∧
     ∀ kv ∈ (create_person_response
        ⟨"Miguel", "Torres", 25, some .black, some false, "password123"⟩).2,
       kv.1 ≠ "password") :=
  ⟨by decide,
   create_person_round_trip ⟨"Miguel", "Torres", 25, some .black, some false, "password123"⟩
     (by decide)⟩

/-- C2: for every positive `person_id` outside `{1, 2, 3, 4, 5}`, the
path-parameter `show_person` handler raises the 404 `HTTPException` with
detail exactly `"Person not found... :["`, and it raises an exception if and
only if the id is outside that set. -/
theorem show_person_not_found (person_id : Int) (hpos : 0 < person_id) :
    (person_id ∉ persons →
      show_person_path person_id = .error (404, "Person not found... :[")) ∧
    ((∃ e, show_person_path person_id = .error e) ↔ person_id ∉ persons) := by
  constructor
  · intro h
    simp [show_person_path, show_person_path_core, h]
  · constructor
    · rintro ⟨e, he⟩ hmem
      simp [show_person_path, show_person_path_core, hmem] at he
    · intro h
      refine ⟨(404, "Person not found... :["), ?_⟩
      simp [show_person_path, show_person_path_core, h]

/-- Witness for C2 at `person_id = 6`. -/
theorem show_person_not_found_witness :
    0 < (6 : Int) ∧
    (((6 : Int) ∉ persons →
      show_person_path 6 = .error (404, "Person not found... :[")) ∧
    ((∃ e, show_person_path 6 = .error e) ↔ (6 : Int) ∉ persons)) :=
  ⟨by decide, show_person_not_found 6 (by decide)⟩

/-- C3 (code bug): the dicts returned by both `show_person` handlers do not
validate against their declared response model `PersonOut` — at the concrete
inputs `name="Marge", age="25"` and `person_id=1` the parse fails and the
full response is a 500, not a value conforming to `PersonOut`. -/
theorem show_person_response_model_mismatch :
    PersonOut.parse (show_person_query (some "Marge") "25") = none ∧
    show_person_query_response (some "Marge") "25" = (500, []) ∧
    PersonOut.parse [("1", JValue.jstr "It exists!")] = none ∧
    show_person_path_response 1 = (500, []) := by decide

/-- C4 (code bug): for the existing id 1 the handler does return the payload
`{1: "It exists!"}` indicating existence, but the declared
`response_model=PersonOut` rejects that payload, so the full response is a
500 Internal Server Error rather than the declared 200. -/
theorem show_person_existing_id_internal_error :
    ((1 : Int) ∈ persons) ∧
    show_person_path 1 = .ok [("1", JValue.jstr "It exists!")] ∧
    show_person_path_response 1 = (500, []) := by decide

/-- C5: `Person` request validation fails exactly when some declared field
bound is violated: age outside `(0, 115]`, a name empty or longer than 50
characters, or a password shorter than 8 characters. -/
theorem person_validation_bounds (p : Person) :
    personValid p = false ↔
      (p.age ≤ 0 ∨ 115 < p.age) ∨
      (p.first_name.length = 0 ∨ 50 < p.first_name.length) ∨
      (p.last_name.length = 0 ∨ 50 < p.last_name.length) ∨
      p.password.length < 8 := by
  have ht : personValid p = true ↔
      ((1 ≤ p.first_name.length ∧ p.first_name.length ≤ 50) ∧
       (1 ≤ p.last_name.length ∧ p.last_name.length ≤ 50) ∧
       (0 < p.age ∧ p.age ≤ 115) ∧ 8 ≤ p.password.length) := by
    simp [personValid, nameOk, ageOk, passwordOk, Bool.and_eq_true, and_assoc]
  rw [← Bool.not_eq_true, ht]
  omega

/-- C6: `POST /login` with username `"abc"` and any password of 8 or more
characters answers 200 with body
`{"username": "abc", "message": "Succesfully Logged"}`. -/
theorem login_abc (password : String) (h : 8 ≤ password.length) :
    login_response "abc" password =
      (200, [("username", JValue.jstr "abc"),
             ("message", JValue.jstr "Succesfully Logged")]) := rfl

/-- Witness for C6 at a concrete password. -/
theorem login_abc_witness :
    8 ≤ "password123".length ∧
    login_response "abc" "password123" =
      (200, [("username", JValue.jstr "abc"),
             ("message", JValue.jstr "Succesfully Logged")]) :=
  ⟨by decide, login_abc "password123" (by decide)⟩

/-- Helper: round-half-to-even differs from its argument by at most one
half. -/
theorem roundHalfEven_err (q : Rat) : |(roundHalfEven q : Rat) - q| ≤ 1 / 2 := by
  have h1 : (⌊q⌋ : Rat) ≤ q := Int.floor_le q
  have h2 : q < ⌊q⌋ + 1 := Int.lt_floor_add_one q
  unfold roundHalfEven
  split_ifs with hlt hgt hev <;> push_cast <;> rw [abs_le] <;>
    constructor <;> linarith

/-- Helper: rounding to two decimals differs from the argument by at most
`1 / 200`. -/
theorem round2_err (q : Rat) : |round2 q - q| ≤ 1 / 200 := by
  have h := roundHalfEven_err (q * 100)
  rw [round2]
  have heq : (roundHalfEven (q * 100) : Rat) / 100 - q =
      ((roundHalfEven (q * 100) : Rat) - q * 100) / 100 := by ring
  rw [heq, abs_div]
  have h100 : |(100 : Rat)| = 100 := by norm_num
  rw [h100]
  linarith

/-- C7: for every uploaded file of byte size `N`, the `POST /upload-image`
response reports the file name, the content type, and a size equal to
`N / (1024 * 1024)` rounded (half to even, as the Python `round`) to two
decimal places — hence within `1 / 200` of the exact megabyte size. -/
theorem post_image_size_rounded (filename content_type : String) (fileBytes : List Nat) :
    (post_image filename content_type fileBytes).lookup "Size (mb)" =
      some (.jrat (round2 ((fileBytes.length : Rat) / (1024 * 1024)))) ∧
    (post_image filename content_type fileBytes).lookup "File name" =
      some (.jstr filename) ∧
    (post_image filename content_type fileBytes).lookup "Content type" =
      some (.jstr content_type) ∧
    |round2 ((fileBytes.length : Rat) / (1024 * 1024)) -
        (fileBytes.length : Rat) / (1024 * 1024)| ≤ 1 / 200 :=
  ⟨rfl, rfl, rfl, round2_err _⟩

/-- C8 counterexample: `PUT /person/1` with a concrete valid `Person` body
does not echo the submitted `Person` back — the response body is not the JSON
encoding of the submitted model (the password field is stripped by the
declared `response_model=PersonOut`). -/
theorem update_person_echo_counterexample :
    update_person_response 1 ⟨"Miguel", "Torres", 25, none, none, "password123"⟩ ≠
      (202, Person.toJson ⟨"Miguel", "Torres", 25, none, none, "password123"⟩) := by decide

/-- C8 (amended): for every positive `person_id` and valid `Person` body,
`PUT /person/{person_id}` answers the declared 202 status and echoes the
submitted person minus the password, i.e. its `PersonOut` projection. -/
theorem update_person_projects_out_password (person_id : Int) (p : Person)
    (hid : 0 < person_id) (h : personValid p = true) :
    update_person_response person_id p =
      (202, PersonOut.toJson ⟨p.first_name, p.last_name, p.age, p.hair_color, p.is_married⟩) := by
  rw [update_person_response, update_person, validate_as_person_out, parse_person_toJson p h]

/-- Witness for the amended C8 at `person_id = 1` and a concrete valid
person. -/
theorem update_person_projects_witness :
    0 < (1 : Int) ∧
    personValid ⟨"Miguel", "Torres", 25, none, none, "password123"⟩ = true ∧
    update_person_response 1 ⟨"Miguel", "Torres", 25, none, none, "password123"⟩ =
      (202, PersonOut.toJson ⟨"Miguel", "Torres", 25, none, none⟩) :=
  ⟨by decide, by decide,
   update_person_projects_out_password 1 ⟨"Miguel", "Torres", 25, none, none, "password123"⟩
     (by decide) (by decide)⟩

/-- Helper: running any request sequence leaves the module state unchanged. -/
theorem runAll_id (t : AppState) (l : List Request) : runAll t l = t := by
  induction l generalizing t with
  | nil => rfl
  | cons a tl ih =>
      have h1 : (handle t a).1 = t := by cases a <;> rfl
      simp only [runAll, List.foldl_cons] at *
      rw [h1]
      exact ih _

/-- C9: no handler writes the module state — every single request maps the
state to itself, after any request sequence from the initial state the
`persons` list is still the constant `persons`, and that constant is
`[1, 2, 3, 4, 5]`. -/
theorem persons_list_never_written (s : AppState) (r : Request) (rs : List Request) :
    (handle s r).1 = s ∧ (runAll initState rs).persons = persons ∧ persons = [1, 2, 3, 4, 5] := by
  refine ⟨?_, ?_, rfl⟩
  · cases r <;> rfl
  · rw [runAll_id]; rfl

/-- C10: the response of `POST /login` does not depend on the password — two
requests with the same username and arbitrary passwords get identical
responses. -/
theorem login_independent_of_password (username pw1 pw2 : String) :
    login_response username pw1 = login_response username pw2 := rfl
